import Mathlib

/-!
Verification development for a small HTTP relay (a Vercel serverless handler
`api/gemini-move.js` and a standalone Express proxy `proxy.js`).  The relay
forwards a chess-position query to a generative-language API with bounded
retry/backoff, then extracts and sanitizes a single move token from the
upstream JSON response.

The definitions below are a shallow embedding of the JavaScript source:
the upstream is modelled as an oracle `Nat → FetchResult` giving the outcome
of each `fetch` call, `Math.random()` as a jitter oracle `Nat → ℚ`, and
`JSON.parse` of the upstream body as an oracle `String → Option GeminiResult`.
JavaScript string truthiness (`undefined` and `""` are falsy) is modelled
explicitly.
-/

/-- An HTTP response as seen by `fetchWithRetry`: a status code and a body
text (the body is read either by `response.text()` on error paths or by
`response.json()` downstream, modelled via a parse oracle). -/
structure Response where
  status : Nat
  body : String
deriving DecidableEq, Repr

/-- `response.ok` of the Fetch API: status in the range 200–299. -/
def Response.ok (r : Response) : Bool :=
  200 ≤ r.status && r.status < 300

/-- Outcome of one underlying `fetch(url, options)` call: either the
transport throws with a message, or a response arrives. -/
inductive FetchResult where
  | throws (msg : String)
  | resp (r : Response)
deriving DecidableEq, Repr

/-- The body of one iteration of the `fetchWithRetry` loop up to the point
where the attempt either yields a usable response or raises an error:

* the transport throwing propagates as an error;
* `status === 429` raises `Error('Rate limit exceeded')`;
* any other non-`ok` status raises an error whose message embeds the status
  and the response body text;
* otherwise the response is returned. -/
def attemptOnce (f : FetchResult) : Except String Response :=
  match f with
  | .throws m => .error m
  | .resp r =>
    if r.status = 429 then
      .error "Rate limit exceeded"
    else if ! r.ok then
      .error ("HTTP error! status: " ++ toString r.status ++ ". Body: " ++ r.body)
    else
      .ok r

/-- Result of the whole `fetchWithRetry` call: a returned response, a thrown
error, or JavaScript `undefined` (the loop exits without returning, which in
the source can only happen when `maxRetries = 0`). -/
inductive RetryResult where
  | success (r : Response)
  | thrown (msg : String)
  | undef
deriving DecidableEq, Repr

/-- Instrumented outcome of `fetchWithRetry`: the value produced, how many
`fetch` calls were made, and the list of backoff delays (in milliseconds,
as exact rationals) slept between attempts, in order. -/
structure RetryTrace where
  result : RetryResult
  attempts : Nat
  sleeps : List ℚ
deriving DecidableEq, Repr

/-- The delay computed in loop iteration `i`:
`Math.pow(2, i) * 1000 + Math.random() * 1000`, with `Math.random()`
modelled by the jitter value `r`. -/
def backoffDelay (i : Nat) (r : ℚ) : ℚ :=
  2 ^ i * 1000 + r * 1000

/-- The `for (let i = 0; i < maxRetries; i++)` loop of `fetchWithRetry`,
with `fuel` the number of remaining iterations (`maxRetries - i`).  When the
loop condition fails the function falls off the end and returns `undefined`.
On an attempt error, the error is rethrown when `i === maxRetries - 1`;
otherwise the computed backoff delay is slept and the loop continues. -/
def fetchRetryGo (fetchO : Nat → FetchResult) (jitter : Nat → ℚ) (maxRetries : Nat) :
    Nat → Nat → RetryTrace
  | 0, _ => ⟨.undef, 0, []⟩
  | fuel + 1, i =>
    match attemptOnce (fetchO i) with
    | .ok r => ⟨.success r, 1, []⟩
    | .error e =>
      if i = maxRetries - 1 then
        ⟨.thrown e, 1, []⟩
      else
        let rest := fetchRetryGo fetchO jitter maxRetries fuel (i + 1)
        ⟨rest.result, rest.attempts + 1, backoffDelay i (jitter i) :: rest.sleeps⟩

/-- `fetchWithRetry(url, options, maxRetries)`: run the retry loop from
`i = 0`.  The url/options pair is captured by the fetch oracle. -/
def fetchWithRetry (fetchO : Nat → FetchResult) (jitter : Nat → ℚ)
    (maxRetries : Nat) : RetryTrace :=
  fetchRetryGo fetchO jitter maxRetries maxRetries 0

/-- JavaScript truthiness of an optional string: `undefined` and the empty
string are falsy, every other string is truthy. -/
def jsTruthyStr : Option String → Bool
  | none => false
  | some s => ! s.isEmpty

/-- The character class `\s` of the JavaScript regexp used in
`rawMove.split(/\s/)`, which coincides with the set trimmed by
`String.prototype.trim`: ASCII whitespace, NBSP, the Unicode space
separators, line/paragraph separators and the BOM. -/
def isJsWS (c : Char) : Bool :=
  c = ' ' || c = '\t' || c = '\n' || c = '\r' ||
  c.toNat = 0xb || c.toNat = 0xc || c.toNat = 0xa0 || c.toNat = 0x1680 ||
  (0x2000 ≤ c.toNat && c.toNat ≤ 0x200a) ||
  c.toNat = 0x2028 || c.toNat = 0x2029 || c.toNat = 0x202f ||
  c.toNat = 0x205f || c.toNat = 0x3000 || c.toNat = 0xfeff

/-- The character class of the sanitation regexp: single quote (39),
double quote (34), backtick (96) and the period.  `replace(/['"`.]/g, '')`
removes every occurrence of these characters. -/
def isStripChar (c : Char) : Bool :=
  c.toNat = 39 || c.toNat = 34 || c.toNat = 96 || c = '.'

/-- `String.prototype.trim`: drop whitespace from both ends. -/
def trimList (l : List Char) : List Char :=
  ((l.dropWhile isJsWS).reverse.dropWhile isJsWS).reverse

/-- `s.split(/\s/)[0]`: the prefix of the string before the first
whitespace character (the whole string when it has none). -/
def firstTokenList (l : List Char) : List Char :=
  l.takeWhile (fun c => ! isJsWS c)

/-- `s.replace(/['"`.]/g, '')`: remove every quote/backtick/period. -/
def stripList (l : List Char) : List Char :=
  l.filter (fun c => ! isStripChar c)

/-- The handler's sanitation of the upstream text, on character lists:
`text.trim()` then `.split(/\s/)[0]` then `.replace(/['"`.]/g, '')`. -/
def cleanMove (l : List Char) : List Char :=
  stripList (firstTokenList (trimList l))

/-- `cleanMove` on strings. -/
def cleanMoveStr (s : String) : String :=
  String.mk (cleanMove s.toList)

/-- One element of `candidates[0].content.parts`; its `text` field may be
absent. -/
structure GeminiPart where
  text : Option String
deriving DecidableEq, Repr

/-- `candidate.content`; its `parts` field may be absent. -/
structure GeminiContent where
  parts : Option (List GeminiPart)
deriving DecidableEq, Repr

/-- One element of `result.candidates`; its `content` field may be absent. -/
structure GeminiCandidate where
  content : Option GeminiContent
deriving DecidableEq, Repr

/-- `result.error`; its `message` field may be absent. -/
structure GeminiError where
  message : Option String
deriving DecidableEq, Repr

/-- The parsed upstream JSON consumed by the handler:
`{ candidates?: [...], error?: { message? } }`. -/
structure GeminiResult where
  candidates : Option (List GeminiCandidate)
  error : Option GeminiError
deriving DecidableEq, Repr

/-- `result.candidates?.[0]`: `undefined` when `candidates` is absent or
empty. -/
def firstCandidate (g : GeminiResult) : Option GeminiCandidate :=
  g.candidates.bind List.head?

/-- `candidate.content?.parts?.[0]?.text` via optional chaining. -/
def candidateText (c : GeminiCandidate) : Option String :=
  c.content.bind fun ct => ct.parts.bind fun ps => ps.head?.bind fun p => p.text

/-- `result.error?.message || 'Gemini returned an empty or invalid
response.'`: the embedded message when it is truthy, the generic message
otherwise. -/
def upstreamErrorMessage (g : GeminiResult) : String :=
  match g.error.bind GeminiError.message with
  | some m => if m.isEmpty then "Gemini returned an empty or invalid response." else m
  | none => "Gemini returned an empty or invalid response."

/-- The JSON body the handler sends back, by shape. -/
inductive HandlerBody where
  | move (m : String)
  | err (msg : String)
  | errDetails (msg details : String)
deriving DecidableEq, Repr

/-- What the serverless handler sends to the caller, together with the
number of outbound `fetch` calls it made. -/
structure HandlerOutcome where
  status : Nat
  body : HandlerBody
  outboundCalls : Nat
deriving DecidableEq, Repr

/-- An incoming request body for the serverless handler; `fen` may be
absent. -/
structure ReqBody where
  fen : Option String
deriving DecidableEq, Repr

/-- The handler after `fetchWithRetry` returned a response: `.json()` the
body (a parse failure throws and is caught by the outer `catch`, which
answers 500 with a runtime-supplied exception message, modelled by the
fixed placeholder detail below); with a parsed `result`, a missing first
candidate or a falsy `candidate.content?.parts?.[0]?.text` answers 502 with
the upstream's embedded error message or the generic one; otherwise the
text is trimmed, sanitized and answered as `{ move }` with status 200. -/
def processUpstream (parse : String → Option GeminiResult) (r : Response)
    (attempts : Nat) : HandlerOutcome :=
  match parse r.body with
  | none =>
    ⟨500, .errDetails "Failed to communicate with the Gemini API."
      "Unexpected token in JSON", attempts⟩
  | some result =>
    match firstCandidate result with
    | none =>
      ⟨502, .err ("Gemini API Error: " ++ upstreamErrorMessage result), attempts⟩
    | some candidate =>
      match candidateText candidate with
      | none =>
        ⟨502, .err ("Gemini API Error: " ++ upstreamErrorMessage result), attempts⟩
      | some t =>
        if t.isEmpty then
          ⟨502, .err ("Gemini API Error: " ++ upstreamErrorMessage result), attempts⟩
        else
          ⟨200, .move (cleanMoveStr t), attempts⟩

/-- The serverless handler (`api/gemini-move.js`) on a POST request, after
the CORS/method plumbing: check the `GEMINI_API_KEY` credential (falsy →
500 config error), read `request.body.fen` (an absent body makes the field
access throw → 400 invalid JSON; a falsy `fen` → 400 missing FEN), then run
`fetchWithRetry` with the default 5 attempts inside a `try`: a thrown error
answers 500 with the error's message as `details` (an `undefined` return,
impossible at 5 retries, would throw on `.json()` with a runtime message,
modelled by a fixed placeholder), and a response is processed by
`processUpstream`. -/
def handler (apiKey : Option String) (reqBody : Option ReqBody)
    (fetchO : Nat → FetchResult) (jitter : Nat → ℚ)
    (parse : String → Option GeminiResult) : HandlerOutcome :=
  if ! jsTruthyStr apiKey then
    ⟨500, .err "Server configuration error: Gemini API Key is missing.", 0⟩
  else
    match reqBody with
    | none => ⟨400, .err "Invalid JSON request body.", 0⟩
    | some b =>
      if ! jsTruthyStr b.fen then
        ⟨400, .err "Missing FEN string in request body.", 0⟩
      else
        let tr := fetchWithRetry fetchO jitter 5
        match tr.result with
        | .thrown e =>
          ⟨500, .errDetails "Failed to communicate with the Gemini API." e, tr.attempts⟩
        | .undef =>
          ⟨500, .errDetails "Failed to communicate with the Gemini API."
            "Cannot read properties of undefined", tr.attempts⟩
        | .success r => processUpstream parse r tr.attempts

/-- An incoming request body for the Express proxy; `prompt` and `model`
may be absent. -/
structure ProxyBody where
  prompt : Option String
  model : Option String
deriving DecidableEq, Repr

/-- The JSON body the proxy sends back: an error object or the upstream
JSON passed through unmodified. -/
inductive ProxyRespBody where
  | errMsg (m : String)
  | rawData (g : GeminiResult)
deriving DecidableEq, Repr

/-- What the Express proxy sends to the caller, with its outbound call
count. -/
structure ProxyOutcome where
  status : Nat
  body : ProxyRespBody
  outboundCalls : Nat
deriving DecidableEq, Repr

/-- `error.message || "An unknown error occurred in the proxy."` -/
def proxyCatchMessage (m : String) : String :=
  if m.isEmpty then "An unknown error occurred in the proxy." else m

/-- The Express proxy route `POST /api/gemini-move` (`proxy.js`), run only
when the credential was present at startup: destructure `prompt` and
`model` (either falsy → 400), make a single `fetch` call (no retry, no
status check), `.json()` its body (a parse failure throws, caught with a
runtime message modelled by a fixed placeholder), and send the parsed
upstream JSON back unmodified with status 200.  A thrown transport error is
caught and answered 500 with the error's message. -/
def proxyRoute (body : ProxyBody) (fetchO : Nat → FetchResult)
    (parse : String → Option GeminiResult) : ProxyOutcome :=
  if ! jsTruthyStr body.prompt || ! jsTruthyStr body.model then
    ⟨400, .errMsg "Missing \x27prompt\x27 or \x27model\x27 in request body.", 0⟩
  else
    match fetchO 0 with
    | .throws m => ⟨500, .errMsg (proxyCatchMessage m), 1⟩
    | .resp r =>
      match parse r.body with
      | none => ⟨500, .errMsg (proxyCatchMessage "Unexpected token in JSON"), 1⟩
      | some g => ⟨200, .rawData g, 1⟩

/-- `proxy.js` startup: `process.exit(1)` when `GEMINI_API_KEY` is falsy,
so the route above only ever runs when this is `true`. -/
def proxyStarts (apiKey : Option String) : Bool :=
  jsTruthyStr apiKey

/-- The sanitation as the spec sentence describes it, for comparison with
`cleanMove`: strip the quote characters, then only *trailing* periods. -/
def stripQuotesList (l : List Char) : List Char :=
  l.filter (fun c => ! (c.toNat = 39 || c.toNat = 34 || c.toNat = 96))

/-- Remove only the trailing run of periods. -/
def dropTrailingDots (l : List Char) : List Char :=
  (l.reverse.dropWhile (fun c => c = '.')).reverse

/-- Remove every period, wherever it occurs. -/
def dropAllDots (l : List Char) : List Char :=
  l.filter (fun c => ! (c = '.'))

/-- Sanitation as described by the specification sentence: first token of
the trimmed text, quote characters stripped, trailing periods stripped. -/
def cleanMoveSpecWords (l : List Char) : List Char :=
  dropTrailingDots (stripQuotesList (firstTokenList (trimList l)))

/-- `cleanMoveSpecWords` on strings. -/
def cleanMoveSpecWordsStr (s : String) : String :=
  String.mk (cleanMoveSpecWords s.toList)

/-! ### Lemmas about sanitization -/

/-- `dropWhile` is the identity on a list none of whose elements satisfy
the predicate. -/
lemma dropWhile_eq_self_of_all {p : Char → Bool} {l : List Char}
    (h : ∀ c ∈ l, p c = false) : l.dropWhile p = l := by
  cases l with
  | nil => rfl
  | cons a t => simp [List.dropWhile, h a (List.mem_cons_self a t)]

/-- `takeWhile` is the identity on a list all of whose elements satisfy
the predicate. -/
lemma takeWhile_eq_self_of_all {p : Char → Bool} {l : List Char}
    (h : ∀ c ∈ l, p c = true) : l.takeWhile p = l := by
  induction l with
  | nil => rfl
  | cons a t ih =>
    simp only [List.takeWhile, h a (List.mem_cons_self a t)]
    exact congrArg (a :: ·) (ih fun c hc => h c (List.mem_cons_of_mem a hc))

/-- Trimming a list with no whitespace is the identity. -/
lemma trimList_eq_self {l : List Char} (h : ∀ c ∈ l, isJsWS c = false) :
    trimList l = l := by
  unfold trimList
  rw [dropWhile_eq_self_of_all h,
    dropWhile_eq_self_of_all (fun c hc => h c (List.mem_reverse.mp hc)),
    List.reverse_reverse]

/-- Taking the first token of a list with no whitespace is the identity. -/
lemma firstTokenList_eq_self {l : List Char} (h : ∀ c ∈ l, isJsWS c = false) :
    firstTokenList l = l :=
  takeWhile_eq_self_of_all fun c hc => by simp [h c hc]

/-- Stripping a list with no quote/backtick/period characters is the
identity. -/
lemma stripList_eq_self {l : List Char} (h : ∀ c ∈ l, isStripChar c = false) :
    stripList l = l :=
  List.filter_eq_self.mpr fun c hc => by simp [h c hc]

/-- Every character of a sanitized list is neither whitespace nor a
stripped character. -/
lemma mem_cleanMove {c : Char} {l : List Char} (hc : c ∈ cleanMove l) :
    isJsWS c = false ∧ isStripChar c = false := by
  unfold cleanMove stripList at hc
  have h2 := List.mem_filter.mp hc
  have h3 := List.mem_takeWhile_imp h2.1
  constructor
  · simpa using h3
  · simpa using h2.2

/-! ### Lemmas about the retry loop -/

/-- `attemptOnce` only returns a response that is not rate-limited and is
`ok`. -/
lemma attemptOnce_ok_status {f : FetchResult} {r : Response}
    (h : attemptOnce f = .ok r) : r.status ≠ 429 ∧ r.ok = true := by
  cases f with
  | throws m => simp [attemptOnce] at h
  | resp r2 =>
    by_cases h429 : r2.status = 429
    · simp [attemptOnce, h429] at h
    · by_cases hok : r2.ok
      · refine ⟨?_, ?_⟩ <;>
          simp only [attemptOnce, if_neg h429, hok, Bool.not_true, if_neg] at h <;>
          simp_all
      · simp [attemptOnce, h429, hok] at h

/-- If the attempts from index `i` up to (exclusive) `k` fail and attempt
`k` succeeds with response `r`, the loop started at `i` returns `r`. -/
lemma fetchRetryGo_success (fetchO : Nat → FetchResult) (jitter : Nat → ℚ)
    (maxR k : Nat) (r : Response)
    (hsucc : attemptOnce (fetchO k) = .ok r) :
    ∀ fuel i, i + fuel = maxR → i ≤ k → k < maxR →
      (∀ j, i ≤ j → j < k → ∃ e, attemptOnce (fetchO j) = .error e) →
      (fetchRetryGo fetchO jitter maxR fuel i).result = .success r := by
  intro fuel
  induction fuel with
  | zero => intro i hinv hik hk _; omega
  | succ m ih =>
    intro i hinv hik hk hfail
    by_cases hieq : i = k
    · subst hieq
      simp [fetchRetryGo, hsucc]
    · obtain ⟨e, he⟩ := hfail i le_rfl (by omega)
      have hne : i ≠ maxR - 1 := by omega
      simp only [fetchRetryGo, he, if_neg hne]
      exact ih (i + 1) (by omega) (by omega) hk
        (fun j hj1 hj2 => hfail j (by omega) hj2)

/-- If every attempt from index `i` to the last one fails, the loop
started at `i` rethrows the last attempt's error after using all its
remaining attempts, sleeping the computed backoff once per non-final
failed attempt. -/
lemma fetchRetryGo_exhaust (fetchO : Nat → FetchResult) (jitter : Nat → ℚ)
    (maxR : Nat) (e : String)
    (hlast : attemptOnce (fetchO (maxR - 1)) = .error e) :
    ∀ fuel i, i + fuel = maxR → 0 < fuel →
      (∀ j, i ≤ j → j < maxR → ∃ e2, attemptOnce (fetchO j) = .error e2) →
      fetchRetryGo fetchO jitter maxR fuel i =
        ⟨.thrown e, fuel,
          (List.range' i (fuel - 1)).map (fun j => backoffDelay j (jitter j))⟩ := by
  intro fuel
  induction fuel with
  | zero => intro i _ h; omega
  | succ m ih =>
    intro i hinv _ hfail
    by_cases hm : m = 0
    · subst hm
      have hi : i = maxR - 1 := by omega
      subst hi
      simp [fetchRetryGo, hlast, List.range']
    · obtain ⟨e2, he2⟩ := hfail i le_rfl (by omega)
      have hne : i ≠ maxR - 1 := by omega
      have hrest := ih (i + 1) (by omega) (by omega)
        (fun j hj1 hj2 => hfail j (by omega) hj2)
      simp only [fetchRetryGo, he2, if_neg hne, hrest]
      obtain ⟨m2, rfl⟩ : ∃ m2, m = m2 + 1 := ⟨m - 1, by omega⟩
      simp [List.range'_succ]

/-- The loop never falls off the end when it has fuel, and any response it
returns passed the status checks of `attemptOnce`. -/
lemma fetchRetryGo_sound (fetchO : Nat → FetchResult) (jitter : Nat → ℚ)
    (maxR : Nat) :
    ∀ fuel i, i + fuel = maxR → 0 < fuel →
      (fetchRetryGo fetchO jitter maxR fuel i).result ≠ .undef ∧
      ∀ r, (fetchRetryGo fetchO jitter maxR fuel i).result = .success r →
        r.status ≠ 429 ∧ r.ok = true := by
  intro fuel
  induction fuel with
  | zero => intro i _ h; omega
  | succ m ih =>
    intro i hinv _
    cases hatt : attemptOnce (fetchO i) with
    | ok r0 =>
      simp only [fetchRetryGo, hatt]
      refine ⟨by simp, fun r hr => ?_⟩
      cases hr
      exact attemptOnce_ok_status hatt
    | error e =>
      by_cases hne : i = maxR - 1
      · simp [fetchRetryGo, hatt, if_pos hne]
      · simp only [fetchRetryGo, hatt, if_neg hne]
        exact ih (i + 1) (by omega) (by omega)

/-! ### Claim theorems -/

/-- C1: if the first `k` attempts (0 < k < 5) fail with a retryable
condition and attempt `k+1` (0-indexed `k`) succeeds with response `r`,
`fetchWithRetry` returns `r`, and the handler's final result is the one
computed from that successful response, so the retries are invisible to
the caller. -/
theorem retry_transparent_success (fetchO : Nat → FetchResult)
    (jitter : Nat → ℚ) (k : Nat) (r : Response)
    (hk0 : 0 < k) (hk : k < 5)
    (hfail : ∀ j, j < k → ∃ e, attemptOnce (fetchO j) = .error e)
    (hsucc : attemptOnce (fetchO k) = .ok r) :
    (fetchWithRetry fetchO jitter 5).result = .success r ∧
    ∀ (apiKey : Option String) (b : ReqBody)
      (parse : String → Option GeminiResult),
      jsTruthyStr apiKey = true → jsTruthyStr b.fen = true →
      handler apiKey (some b) fetchO jitter parse =
        processUpstream parse r (fetchWithRetry fetchO jitter 5).attempts := by
  have hres : (fetchWithRetry fetchO jitter 5).result = .success r :=
    fetchRetryGo_success fetchO jitter 5 k r hsucc 5 0 rfl (by omega) hk
      (fun j _ hj2 => hfail j hj2)
  refine ⟨hres, fun apiKey b parse hkey hfen => ?_⟩
  simp [handler, hkey, hfen, hres]

/-- Witness for C1 at a concrete input: one transport exception, then a
200 response. -/
theorem retry_transparent_success_witness :
    (fetchWithRetry (fun i => if i = 0 then .throws "boom" else .resp ⟨200, "good"⟩)
      (fun _ => 0) 5).result = .success ⟨200, "good"⟩ ∧
    ∀ (apiKey : Option String) (b : ReqBody)
      (parse : String → Option GeminiResult),
      jsTruthyStr apiKey = true → jsTruthyStr b.fen = true →
      handler apiKey (some b)
        (fun i => if i = 0 then .throws "boom" else .resp ⟨200, "good"⟩)
        (fun _ => 0) parse =
        processUpstream parse ⟨200, "good"⟩
          (fetchWithRetry (fun i => if i = 0 then .throws "boom" else .resp ⟨200, "good"⟩)
            (fun _ => 0) 5).attempts :=
  retry_transparent_success _ _ 1 ⟨200, "good"⟩ (by norm_num) (by norm_num)
    (fun j hj => by
      have hj0 : j = 0 := by omega
      subst hj0
      exact ⟨"boom", rfl⟩)
    rfl

/-- C2: when all 5 attempts fail, `fetchWithRetry` makes exactly 5
attempts and rethrows the error of the final (5th) attempt unchanged, and
the handler's failure message carries exactly that error's detail. -/
theorem retry_exhausted_last_error (fetchO : Nat → FetchResult)
    (jitter : Nat → ℚ) (e : String)
    (hfail : ∀ j, j < 5 → ∃ e2, attemptOnce (fetchO j) = .error e2)
    (hlast : attemptOnce (fetchO 4) = .error e) :
    (fetchWithRetry fetchO jitter 5).result = .thrown e ∧
    (fetchWithRetry fetchO jitter 5).attempts = 5 ∧
    ∀ (apiKey : Option String) (b : ReqBody)
      (parse : String → Option GeminiResult),
      jsTruthyStr apiKey = true → jsTruthyStr b.fen = true →
      handler apiKey (some b) fetchO jitter parse =
        ⟨500, .errDetails "Failed to communicate with the Gemini API." e, 5⟩ := by
  have hex := fetchRetryGo_exhaust fetchO jitter 5 e hlast 5 0 rfl (by norm_num)
    (fun j _ hj2 => hfail j hj2)
  have hres : fetchWithRetry fetchO jitter 5 =
      ⟨.thrown e, 5, (List.range' 0 4).map (fun j => backoffDelay j (jitter j))⟩ := hex
  refine ⟨by rw [hres], by rw [hres], fun apiKey b parse hkey hfen => ?_⟩
  simp [handler, hkey, hfen, hres]

/-- Witness for C2 at a concrete input: the upstream answers 429 on every
attempt, so the caller gets the rate-limit error after exactly 5
attempts. -/
theorem retry_exhausted_last_error_witness :
    (fetchWithRetry (fun _ => .resp ⟨429, "rl"⟩) (fun _ => 0) 5).result =
      .thrown "Rate limit exceeded" ∧
    (fetchWithRetry (fun _ => .resp ⟨429, "rl"⟩) (fun _ => 0) 5).attempts = 5 ∧
    ∀ (apiKey : Option String) (b : ReqBody)
      (parse : String → Option GeminiResult),
      jsTruthyStr apiKey = true → jsTruthyStr b.fen = true →
      handler apiKey (some b) (fun _ => .resp ⟨429, "rl"⟩) (fun _ => 0) parse =
        ⟨500, .errDetails "Failed to communicate with the Gemini API."
          "Rate limit exceeded", 5⟩ :=
  retry_exhausted_last_error _ _ _
    (fun _ _ => ⟨"Rate limit exceeded", rfl⟩) rfl

/-- C10: with the default `maxRetries = 5`, `fetchWithRetry` never falls
off the end of the loop, and any response it returns has a success
status: not 429 and `response.ok`, so the handler's non-ok branch is
unreachable for any value it goes on to parse. -/
theorem retry_value_implies_ok (fetchO : Nat → FetchResult) (jitter : Nat → ℚ) :
    (fetchWithRetry fetchO jitter 5).result ≠ .undef ∧
    ∀ r, (fetchWithRetry fetchO jitter 5).result = .success r →
      r.status ≠ 429 ∧ r.ok = true :=
  fetchRetryGo_sound fetchO jitter 5 5 0 rfl (by norm_num)

/-- Witness for C10 at a concrete input: a first-attempt 200 response is
returned and indeed satisfies the success-status predicate. -/
theorem retry_value_implies_ok_witness :
    (⟨200, "good"⟩ : Response).status ≠ 429 ∧ (⟨200, "good"⟩ : Response).ok = true :=
  (retry_value_implies_ok (fun _ => .resp ⟨200, "good"⟩) (fun _ => 0)).2
    ⟨200, "good"⟩ rfl

/-- Sanitizing an already sanitized character list changes nothing. -/
lemma cleanMove_idem (l : List Char) : cleanMove (cleanMove l) = cleanMove l := by
  have h1 : ∀ c ∈ cleanMove l, isJsWS c = false := fun c hc => (mem_cleanMove hc).1
  have h2 : ∀ c ∈ cleanMove l, isStripChar c = false := fun c hc => (mem_cleanMove hc).2
  show stripList (firstTokenList (trimList (cleanMove l))) = cleanMove l
  rw [trimList_eq_self h1, firstTokenList_eq_self h1, stripList_eq_self h2]

/-- C5: the sanitization is idempotent — applying it twice to any string
yields the same result as applying it once. -/
theorem sanitize_idempotent (s : String) :
    cleanMoveStr (cleanMoveStr s) = cleanMoveStr s := by
  show String.mk (cleanMove (String.mk (cleanMove s.toList)).toList) =
    String.mk (cleanMove s.toList)
  exact congrArg String.mk (cleanMove_idem s.toList)

/-- C3's description is refuted by the code on `"a.b"`: the source removes
every period (its regexp is global over `['"`.]`), while the claim's
"trailing periods" sanitization keeps an interior period. -/
theorem sanitize_trailing_dots_counterexample :
    cleanMoveStr "a.b" = "ab" ∧ cleanMoveSpecWordsStr "a.b" = "a.b" ∧
    cleanMoveStr "a.b" ≠ cleanMoveSpecWordsStr "a.b" := by
  refine ⟨rfl, rfl, ?_⟩
  decide

/-- C3 amended: the sanitization trims, keeps the first
whitespace-delimited token, and strips the quote characters and *all*
periods (not only trailing ones); on the concrete inputs it maps
`"Nf6\n"` to `"Nf6"`, `"'e4'."` to `"e4"`, and `"Qxg7 (best)"` to
`"Qxg7"`. -/
theorem sanitize_examples_and_all_dots :
    cleanMoveStr "Nf6\n" = "Nf6" ∧
    cleanMoveStr "\x27e4\x27." = "e4" ∧
    cleanMoveStr "Qxg7 (best)" = "Qxg7" ∧
    ∀ l : List Char,
      cleanMove l = dropAllDots (stripQuotesList (firstTokenList (trimList l))) := by
  refine ⟨rfl, rfl, rfl, fun l => ?_⟩
  unfold cleanMove stripList dropAllDots stripQuotesList
  rw [List.filter_filter]
  apply List.filter_congr
  intro c _
  by_cases h1 : c.toNat = 39 <;> by_cases h2 : c.toNat = 34 <;>
    by_cases h3 : c.toNat = 96 <;> by_cases h4 : c = '.' <;>
    simp [isStripChar, h1, h2, h3, h4]

/-- C4's indexing is refuted by the code: in a fully failing zero-jitter
run, the delay slept before attempt 1 (the first sleep, computed in loop
iteration 0) is 1000 ms, which is not in the claimed interval
`[2^1 * 1000, 2^1 * 1000 + 1000)`; moreover only four delays are slept
across a fully failing 5-attempt run, so the worst-case total is far from
~32 seconds. -/
theorem backoff_off_by_one_counterexample :
    (fetchWithRetry (fun _ => .throws "boom1") (fun _ => 0) 5).sleeps.head? =
      some 1000 ∧
    ¬ ((2 : ℚ) ^ 1 * 1000 ≤ 1000) ∧
    (fetchWithRetry (fun _ => .throws "boom1") (fun _ => 0) 5).sleeps.length = 4 := by
  have hex := fetchRetryGo_exhaust (fun _ => .throws "boom1") (fun _ => 0) 5
    "boom1" rfl 5 0 rfl (by norm_num) (fun j _ _ => ⟨"boom1", rfl⟩)
  have hsl : (fetchWithRetry (fun _ => .throws "boom1") (fun _ => 0) 5).sleeps =
      [backoffDelay 0 0, backoffDelay 1 0, backoffDelay 2 0, backoffDelay 3 0] := by
    show (fetchRetryGo (fun _ => .throws "boom1") (fun _ => 0) 5 5 0).sleeps = _
    rw [hex]
    simp [List.range']
  refine ⟨?_, by norm_num, ?_⟩
  · rw [hsl]
    norm_num [backoffDelay]
  · rw [hsl]
    rfl

/-- C4 amended: in a fully failing 5-attempt run the delay slept after
attempt `i` (before attempt `i+1`) lies in
`[2^i * 1000, 2^i * 1000 + 1000)` milliseconds for jitter in `[0, 1)`;
exactly four delays are slept (after attempts 0–3), and the total backoff
wait lies in `[15000, 19000)` milliseconds — under 19 seconds, not ~32. -/
theorem backoff_bounds_amended (fetchO : Nat → FetchResult) (jitter : Nat → ℚ)
    (hj : ∀ i, 0 ≤ jitter i ∧ jitter i < 1)
    (hfail : ∀ j, j < 5 → ∃ e2, attemptOnce (fetchO j) = .error e2) :
    (∀ i, 2 ^ i * 1000 ≤ backoffDelay i (jitter i) ∧
      backoffDelay i (jitter i) < 2 ^ i * 1000 + 1000) ∧
    (fetchWithRetry fetchO jitter 5).sleeps =
      [backoffDelay 0 (jitter 0), backoffDelay 1 (jitter 1),
       backoffDelay 2 (jitter 2), backoffDelay 3 (jitter 3)] ∧
    15000 ≤ (fetchWithRetry fetchO jitter 5).sleeps.sum ∧
    (fetchWithRetry fetchO jitter 5).sleeps.sum < 19000 := by
  obtain ⟨e, he⟩ := hfail 4 (by norm_num)
  have hex := fetchRetryGo_exhaust fetchO jitter 5 e he 5 0 rfl (by norm_num)
    (fun j _ hj2 => hfail j hj2)
  have hsleeps : (fetchWithRetry fetchO jitter 5).sleeps =
      [backoffDelay 0 (jitter 0), backoffDelay 1 (jitter 1),
       backoffDelay 2 (jitter 2), backoffDelay 3 (jitter 3)] := by
    show (fetchRetryGo fetchO jitter 5 5 0).sleeps = _
    rw [hex]
    simp [List.range']
  have hbound : ∀ i, 2 ^ i * 1000 ≤ backoffDelay i (jitter i) ∧
      backoffDelay i (jitter i) < 2 ^ i * 1000 + 1000 := by
    intro i
    obtain ⟨h0, h1⟩ := hj i
    unfold backoffDelay
    constructor
    · nlinarith
    · nlinarith
  refine ⟨hbound, hsleeps, ?_, ?_⟩
  · rw [hsleeps]
    obtain ⟨hb0, _⟩ := hbound 0
    obtain ⟨hb1, _⟩ := hbound 1
    obtain ⟨hb2, _⟩ := hbound 2
    obtain ⟨hb3, _⟩ := hbound 3
    simp only [List.sum_cons, List.sum_nil]
    norm_num at hb0 hb1 hb2 hb3 ⊢
    linarith
  · rw [hsleeps]
    obtain ⟨_, hc0⟩ := hbound 0
    obtain ⟨_, hc1⟩ := hbound 1
    obtain ⟨_, hc2⟩ := hbound 2
    obtain ⟨_, hc3⟩ := hbound 3
    simp only [List.sum_cons, List.sum_nil]
    norm_num at hc0 hc1 hc2 hc3 ⊢
    linarith

/-- Witness for the amended C4 at a concrete input: constant jitter 1/2
against an always-throwing upstream. -/
theorem backoff_bounds_amended_witness :
    (∀ i : Nat, 2 ^ i * 1000 ≤ backoffDelay i ((1 : ℚ)/2) ∧
      backoffDelay i ((1 : ℚ)/2) < 2 ^ i * 1000 + 1000) ∧
    (fetchWithRetry (fun _ => .throws "boom2") (fun _ => (1 : ℚ)/2) 5).sleeps =
      [backoffDelay 0 ((1 : ℚ)/2), backoffDelay 1 ((1 : ℚ)/2),
       backoffDelay 2 ((1 : ℚ)/2), backoffDelay 3 ((1 : ℚ)/2)] ∧
    15000 ≤ (fetchWithRetry (fun _ => .throws "boom2") (fun _ => (1 : ℚ)/2) 5).sleeps.sum ∧
    (fetchWithRetry (fun _ => .throws "boom2") (fun _ => (1 : ℚ)/2) 5).sleeps.sum < 19000 :=
  backoff_bounds_amended (fun _ => .throws "boom2") (fun _ => (1 : ℚ)/2)
    (fun _ => by norm_num) (fun _ _ => ⟨"boom2", rfl⟩)

/-- C7: a missing (or empty, hence falsy) required input field makes each
entry point answer 400 with an explanatory message and zero outbound
calls: `fen` for the serverless handler (given a configured key, which is
checked first), `prompt` or `model` for the standalone server. -/
theorem missing_input_fast_fail (apiKey : Option String) (b : ReqBody)
    (pb : ProxyBody) (fetchO : Nat → FetchResult) (jitter : Nat → ℚ)
    (parse : String → Option GeminiResult)
    (hkey : jsTruthyStr apiKey = true)
    (hfen : jsTruthyStr b.fen = false)
    (hpm : jsTruthyStr pb.prompt = false ∨ jsTruthyStr pb.model = false) :
    handler apiKey (some b) fetchO jitter parse =
      ⟨400, .err "Missing FEN string in request body.", 0⟩ ∧
    proxyRoute pb fetchO parse =
      ⟨400, .errMsg "Missing \x27prompt\x27 or \x27model\x27 in request body.", 0⟩ := by
  constructor
  · simp [handler, hkey, hfen]
  · rcases hpm with h | h <;> simp [proxyRoute, h]

/-- Witness for C7 at concrete inputs: a body without `fen`, and a body
without `prompt`. -/
theorem missing_input_fast_fail_witness :
    handler (some "key1") (some ⟨none⟩) (fun _ => .throws "never") (fun _ => 0)
      (fun _ => none) = ⟨400, .err "Missing FEN string in request body.", 0⟩ ∧
    proxyRoute ⟨none, some "gemini"⟩ (fun _ => .throws "never") (fun _ => none) =
      ⟨400, .errMsg "Missing \x27prompt\x27 or \x27model\x27 in request body.", 0⟩ :=
  missing_input_fast_fail (some "key1") ⟨none⟩ ⟨none, some "gemini"⟩
    (fun _ => .throws "never") (fun _ => 0) (fun _ => none)
    rfl rfl (Or.inl rfl)

/-- C8: with the `GEMINI_API_KEY` credential absent (or empty, hence
falsy), the serverless handler answers 500 with the configuration-error
message and makes no outbound call; the standalone server exits at
startup under the same condition, so it processes no request at all. -/
theorem missing_key_config_error (apiKey : Option String)
    (reqBody : Option ReqBody) (fetchO : Nat → FetchResult) (jitter : Nat → ℚ)
    (parse : String → Option GeminiResult)
    (hkey : jsTruthyStr apiKey = false) :
    handler apiKey reqBody fetchO jitter parse =
      ⟨500, .err "Server configuration error: Gemini API Key is missing.", 0⟩ ∧
    proxyStarts apiKey = false := by
  exact ⟨by simp [handler, hkey], hkey⟩

/-- Witness for C8 at a concrete input: the credential is absent. -/
theorem missing_key_config_error_witness :
    handler none (some ⟨some "8/8 w - - 0 1"⟩) (fun _ => .throws "never")
      (fun _ => 0) (fun _ => none) =
      ⟨500, .err "Server configuration error: Gemini API Key is missing.", 0⟩ ∧
    proxyStarts none = false :=
  missing_key_config_error none (some ⟨some "8/8 w - - 0 1"⟩)
    (fun _ => .throws "never") (fun _ => 0) (fun _ => none) rfl

/-- C6's parse-failure branch is refuted by the code: when the fetched
body fails to parse as JSON, `.json()` throws into the handler's outer
`catch`, which answers 500 (the generic communication failure), not 502. -/
theorem parse_failure_status_counterexample :
    (fun _ => (none : Option GeminiResult)) "bad json" = none ∧
    handler (some "key2") (some ⟨some "8/8 b - - 0 1"⟩)
      (fun _ => .resp ⟨200, "bad json"⟩) (fun _ => 0) (fun _ => none) =
      ⟨500, .errDetails "Failed to communicate with the Gemini API."
        "Unexpected token in JSON", 1⟩ ∧
    (handler (some "key2") (some ⟨some "8/8 b - - 0 1"⟩)
      (fun _ => .resp ⟨200, "bad json"⟩) (fun _ => 0) (fun _ => none)).status ≠ 502 := by
  refine ⟨rfl, rfl, ?_⟩
  decide

/-- C6 amended: after a successful fetch, a JSON parse failure is caught
by the outer handler `catch` and answered 500 with the generic
communication-failure message; a parsed body whose first candidate is
absent, or whose extracted text is absent or empty, is answered 502 with
the upstream's embedded error message when truthy and the generic
empty-or-invalid message otherwise; and any 200 answer carries exactly
the sanitized text of a successfully extracted non-empty candidate — no
partial or half-parsed value is ever returned. -/
theorem upstream_outcome_classification (parse : String → Option GeminiResult)
    (r : Response) (n : Nat) :
    (parse r.body = none →
      processUpstream parse r n =
        ⟨500, .errDetails "Failed to communicate with the Gemini API."
          "Unexpected token in JSON", n⟩) ∧
    (∀ g, parse r.body = some g →
      (firstCandidate g = none ∨
        (∃ c, firstCandidate g = some c ∧ jsTruthyStr (candidateText c) = false)) →
      processUpstream parse r n =
        ⟨502, .err ("Gemini API Error: " ++ upstreamErrorMessage g), n⟩) ∧
    (∀ s, (processUpstream parse r n).status = 200 →
      (processUpstream parse r n).body = .move s →
      ∃ g c t, parse r.body = some g ∧ firstCandidate g = some c ∧
        candidateText c = some t ∧ t.isEmpty = false ∧ s = cleanMoveStr t) := by
  refine ⟨fun hp => ?_, fun g hg hbad => ?_, fun s h200 hbody => ?_⟩
  · simp [processUpstream, hp]
  · rcases hbad with hnone | ⟨c, hc, hfalsy⟩
    · simp [processUpstream, hg, hnone]
    · cases ht : candidateText c with
      | none => simp [processUpstream, hg, hc, ht]
      | some t =>
        rw [ht] at hfalsy
        have hte : t.isEmpty = true := by
          simpa [jsTruthyStr] using hfalsy
        simp [processUpstream, hg, hc, ht, hte]
  · cases hp : parse r.body with
    | none => simp [processUpstream, hp] at h200
    | some g =>
      cases hc : firstCandidate g with
      | none => simp [processUpstream, hp, hc] at h200
      | some c =>
        cases ht : candidateText c with
        | none => simp [processUpstream, hp, hc, ht] at h200
        | some t =>
          by_cases hte : t.isEmpty
          · simp [processUpstream, hp, hc, ht, hte] at h200
          · simp [processUpstream, hp, hc, ht, hte] at hbody
            exact ⟨g, c, t, rfl, hc, ht, by simpa using hte, hbody.symm⟩

/-- Witness for the amended C6 at a concrete input: a body that does not
parse yields the 500 outcome. -/
theorem upstream_outcome_classification_witness :
    processUpstream (fun _ => none) ⟨200, "zz"⟩ 1 =
      ⟨500, .errDetails "Failed to communicate with the Gemini API."
        "Unexpected token in JSON", 1⟩ :=
  (upstream_outcome_classification (fun _ => none) ⟨200, "zz"⟩ 1).1 rfl

/-- A parsed upstream success body whose single candidate's text is
`"Nf6\n"`. -/
def exGoodResult : GeminiResult :=
  ⟨some [⟨some ⟨some [⟨some "Nf6\n"⟩]⟩⟩], none⟩

/-- Upstream behaviour for comparing the two entry points: the first call
gets HTTP 500 with body `"E"`, every later call gets HTTP 200 with body
`"GOOD"`. -/
def exFlakyFetch : Nat → FetchResult :=
  fun i => if i = 0 then .resp ⟨500, "E"⟩ else .resp ⟨200, "GOOD"⟩

/-- Parse oracle for the comparison: only the body `"GOOD"` parses, to
`exGoodResult`. -/
def exParseGood : String → Option GeminiResult :=
  fun s => if s = "GOOD" then some exGoodResult else none

/-- C9 is refuted by the code: against the same upstream behaviour (one
HTTP 500, then success), the serverless handler retries and answers 200
with the sanitized move after 2 outbound calls, while the standalone
server does not retry (1 outbound call) and, having no status check,
tries to parse the error body and answers 500 — the two entry points
disagree on status, on body shape, and on outbound call count. -/
theorem entrypoints_not_equivalent :
    handler (some "key3") (some ⟨some "8/8 w - - 0 1"⟩) exFlakyFetch
      (fun _ => 0) exParseGood = ⟨200, .move "Nf6", 2⟩ ∧
    proxyRoute ⟨some "analyze 8/8", some "gemini-pro"⟩ exFlakyFetch exParseGood =
      ⟨500, .errMsg "Unexpected token in JSON", 1⟩ ∧
    (handler (some "key3") (some ⟨some "8/8 w - - 0 1"⟩) exFlakyFetch
      (fun _ => 0) exParseGood).status ≠
      (proxyRoute ⟨some "analyze 8/8", some "gemini-pro"⟩ exFlakyFetch exParseGood).status ∧
    (handler (some "key3") (some ⟨some "8/8 w - - 0 1"⟩) exFlakyFetch
      (fun _ => 0) exParseGood).outboundCalls ≠
      (proxyRoute ⟨some "analyze 8/8", some "gemini-pro"⟩ exFlakyFetch exParseGood).outboundCalls := by
  refine ⟨rfl, rfl, ?_, ?_⟩ <;> decide

/-- C9 amended: both entry points accept a POST body, inject the
server-side key and call the same upstream API, but they are not
behaviourally equivalent: the standalone server makes at most one
outbound call per request and passes the upstream JSON through
unmodified, while the serverless handler retries (up to 5 outbound
calls) and answers a sanitized single-token move extracted from the
response. -/
theorem entrypoints_shared_relay_not_equivalent (pb : ProxyBody)
    (fetchO : Nat → FetchResult) (parse : String → Option GeminiResult) :
    (proxyRoute pb fetchO parse).outboundCalls ≤ 1 ∧
    (fetchWithRetry (fun _ => .resp ⟨429, "rl"⟩) (fun _ => 0) 5).attempts = 5 ∧
    proxyRoute ⟨some "analyze 8/8", some "gemini-pro"⟩
      (fun _ => .resp ⟨200, "GOOD"⟩) exParseGood = ⟨200, .rawData exGoodResult, 1⟩ ∧
    handler (some "key4") (some ⟨some "8/8 w - - 0 1"⟩)
      (fun _ => .resp ⟨200, "GOOD"⟩) (fun _ => 0) exParseGood =
      ⟨200, .move "Nf6", 1⟩ := by
  refine ⟨?_, by decide, by decide, by decide⟩
  unfold proxyRoute
  split
  · simp
  · split
    · simp
    · split <;> simp
